import Mathlib

/-!
Shallow embedding of the `fks_services_analyze_forex` service
(`src/api/routes.py`).  Every route handler is a pure Lean function;
time-dependent handlers take the current UTC hour (and an abstract
timestamp) as explicit parameters.  Python `float` literals, all exact
decimals here, are embedded as rationals.  A handler's possible
`HTTPException` is embedded as the `Except HTTPError` result type.
-/

namespace ForexService

/-- Embeds the `ForexPair` pydantic model of `routes.py`. -/
structure ForexPair where
  symbol : String
  base : String
  quote : String
  category : String
  pip_value : ℚ
  spread_avg : Option ℚ
deriving DecidableEq, Repr

/-- Embeds the `FOREX_PAIRS` dict of `routes.py` as an association list
preserving the dict's insertion order (majors, minors, exotics). -/
def FOREX_PAIRS : List (String × ForexPair) :=
  [ ("EURUSD", ⟨"EURUSD", "EUR", "USD", "major", 1/10000, none⟩),
    ("GBPUSD", ⟨"GBPUSD", "GBP", "USD", "major", 1/10000, none⟩),
    ("USDJPY", ⟨"USDJPY", "USD", "JPY", "major", 1/100, none⟩),
    ("USDCHF", ⟨"USDCHF", "USD", "CHF", "major", 1/10000, none⟩),
    ("AUDUSD", ⟨"AUDUSD", "AUD", "USD", "major", 1/10000, none⟩),
    ("USDCAD", ⟨"USDCAD", "USD", "CAD", "major", 1/10000, none⟩),
    ("NZDUSD", ⟨"NZDUSD", "NZD", "USD", "major", 1/10000, none⟩),
    ("EURGBP", ⟨"EURGBP", "EUR", "GBP", "minor", 1/10000, none⟩),
    ("EURJPY", ⟨"EURJPY", "EUR", "JPY", "minor", 1/100, none⟩),
    ("GBPJPY", ⟨"GBPJPY", "GBP", "JPY", "minor", 1/100, none⟩),
    ("AUDJPY", ⟨"AUDJPY", "AUD", "JPY", "minor", 1/100, none⟩),
    ("EURAUD", ⟨"EURAUD", "EUR", "AUD", "minor", 1/10000, none⟩),
    ("EURCHF", ⟨"EURCHF", "EUR", "CHF", "minor", 1/10000, none⟩),
    ("GBPCHF", ⟨"GBPCHF", "GBP", "CHF", "minor", 1/10000, none⟩),
    ("USDZAR", ⟨"USDZAR", "USD", "ZAR", "exotic", 1/10000, none⟩),
    ("USDMXN", ⟨"USDMXN", "USD", "MXN", "exotic", 1/10000, none⟩),
    ("USDTRY", ⟨"USDTRY", "USD", "TRY", "exotic", 1/10000, none⟩),
    ("USDINR", ⟨"USDINR", "USD", "INR", "exotic", 1/10000, none⟩) ]

/-- Embeds `HTTPException(status_code=..., detail=...)`. -/
structure HTTPError where
  status_code : Nat
  detail : String
deriving DecidableEq, Repr

/-- Embeds `list_pairs`: `list(FOREX_PAIRS.values())`, filtered by category
when the `category` query parameter is truthy (present and non-empty). -/
def list_pairs (category : Option String) : List ForexPair :=
  let pairs := FOREX_PAIRS.map Prod.snd
  match category with
  | some c => if !c.isEmpty then pairs.filter (fun p => p.category == c) else pairs
  | none => pairs

/-- ASCII uppercase of one character, as Python `str.upper()` acts on the
ASCII strings this service handles. -/
def char_upper (c : Char) : Char :=
  if 97 ≤ c.toNat ∧ c.toNat ≤ 122 then Char.ofNat (c.toNat - 32) else c

/-- Embeds Python `str.upper()` (every symbol this service compares is
ASCII). -/
def str_upper (s : String) : String := ⟨s.data.map char_upper⟩

/-- Embeds `get_pair`: uppercase the path symbol, 404 when absent from
`FOREX_PAIRS`, otherwise return the catalog record. -/
def get_pair (symbol : String) : Except HTTPError ForexPair :=
  let symbol := str_upper symbol
  match FOREX_PAIRS.lookup symbol with
  | none => .error ⟨404, "Pair " ++ symbol ++ " not found"⟩
  | some p => .ok p

/-- Embeds the `_get_current_session` helper: the UTC hour (0-23 as produced
by `datetime.now(timezone.utc).hour`) is passed explicitly. -/
def _get_current_session (hour : Nat) : String :=
  if 0 ≤ hour ∧ hour < 6 then "tokyo"
  else if 6 ≤ hour ∧ hour < 9 then "tokyo_london"
  else if 9 ≤ hour ∧ hour < 12 then "london"
  else if 12 ≤ hour ∧ hour < 16 then "london_new_york"
  else if 16 ≤ hour ∧ hour < 21 then "new_york"
  else "sydney"

/-- Embeds the `AnalyzeRequest` pydantic model (defaults `timeframe="1h"`,
`include_ai=True` in the source are supplied explicitly by callers here). -/
structure AnalyzeRequest where
  symbol : String
  timeframe : String
  include_ai : Bool
deriving DecidableEq, Repr

/-- A JSON-like value for the open `indicators: Dict[str, Any]` mapping:
a number, or a string-keyed object of numbers — the only two shapes the
source ever stores there. -/
inductive JVal where
  | num (q : ℚ)
  | obj (fields : List (String × ℚ))
deriving DecidableEq, Repr

/-- Embeds the `AnalysisResult` pydantic model.  `timestamp` is an abstract
instant (the handler receives `datetime.utcnow()` as a parameter), and
`ai_analysis` values are all strings in the source. -/
structure AnalysisResult where
  symbol : String
  timeframe : String
  timestamp : Nat
  price : ℚ
  direction : String
  confidence : ℚ
  indicators : List (String × JVal)
  session : String
  volatility : String
  support_levels : List ℚ
  resistance_levels : List ℚ
  ai_analysis : Option (List (String × String))
deriving DecidableEq, Repr

/-- Embeds `analyze_pair`: validate the symbol against `FOREX_PAIRS`
(404 when absent), compute the session from the UTC hour, assemble the
fixed mock result, and attach the AI block when `include_ai` is set. -/
def analyze_pair (request : AnalyzeRequest) (hour : Nat) (now : Nat) :
    Except HTTPError AnalysisResult :=
  let symbol := str_upper request.symbol
  match FOREX_PAIRS.lookup symbol with
  | none => .error ⟨404, "Pair " ++ symbol ++ " not found"⟩
  | some _ =>
    let session := _get_current_session hour
    let result : AnalysisResult :=
      { symbol := symbol
        timeframe := request.timeframe
        timestamp := now
        price := 10850/10000
        direction := "NEUTRAL"
        confidence := 65/100
        indicators :=
          [ ("rsi", .num (523/10)),
            ("macd", .obj [("value", 12/10000), ("signal", 8/10000),
                           ("histogram", 4/10000)]),
            ("bb", .obj [("upper", 10900/10000), ("middle", 10850/10000),
                         ("lower", 10800/10000)]),
            ("atr", .num (45/10000)),
            ("ema_20", .num (10845/10000)),
            ("ema_50", .num (10830/10000)),
            ("ema_200", .num (10780/10000)) ]
        session := session
        volatility := "MEDIUM"
        support_levels := [10800/10000, 10750/10000, 10700/10000]
        resistance_levels := [10900/10000, 10950/10000, 11000/10000]
        ai_analysis := none }
    if request.include_ai then
      let ai : List (String × String) :=
        [ ("bull_case", "EUR strength on hawkish ECB stance"),
          ("bear_case", "USD safe-haven demand amid risk-off"),
          ("key_levels", "Watch 1.0900 resistance"),
          ("session_bias", session ++ " session typically bullish for EUR") ]
      .ok { result with ai_analysis := some ai }
    else
      .ok result

/-- Embeds the `Signal` pydantic model; `created_at` and `expires_at` are
abstract instants. -/
structure Signal where
  id : String
  symbol : String
  direction : String
  entry_price : ℚ
  stop_loss : ℚ
  take_profit : ℚ
  confidence : ℚ
  timeframe : String
  session : String
  created_at : Nat
  expires_at : Option Nat
  reasoning : String
deriving DecidableEq, Repr

/-- Embeds the fixed mock signal list built inside `get_signals`, with the
request-time `datetime.utcnow()` value passed in as `now`. -/
def seed_signals (now : Nat) : List Signal :=
  [ ⟨"fx-001", "EURUSD", "LONG", 10850/10000, 10800/10000, 10950/10000, 78/100,
     "4h", "london", now, none, "Bullish engulfing at support with RSI divergence"⟩,
    ⟨"fx-002", "GBPJPY", "SHORT", 18850/100, 18920/100, 18700/100, 72/100,
     "1h", "tokyo", now, none, "Double top pattern with bearish momentum"⟩ ]

/-- The declared default of the `min_confidence` query parameter,
`Query(0.7, ...)`. -/
def min_confidence_default : ℚ := 7/10

/-- Embeds `get_signals`: the seed list, then the symbol filter (applied when
the parameter is truthy, i.e. present and non-empty), the direction filter
(likewise), and the inclusive minimum-confidence filter. -/
def get_signals (symbol direction : Option String) (min_confidence : ℚ)
    (now : Nat) : List Signal :=
  let signals := seed_signals now
  let signals : List Signal :=
    match symbol with
    | some s => if !s.isEmpty then signals.filter (fun x => x.symbol == str_upper s)
                else signals
    | none => signals
  let signals : List Signal :=
    match direction with
    | some d => if !d.isEmpty then signals.filter (fun x => x.direction == str_upper d)
                else signals
    | none => signals
  signals.filter (fun x => min_confidence ≤ x.confidence)

/-- The `/signals` route handler as seen by a client: its body contains no
`raise`, so the handler always produces a success response with the filtered
list. -/
def get_signals_endpoint (symbol direction : Option String)
    (min_confidence : ℚ) (now : Nat) : Except HTTPError (List Signal) :=
  Except.ok (get_signals symbol direction min_confidence now)

/-- One named session row of the `/sessions` response (source keys
`open`, `close`, `timezone`; `open` is a Lean keyword, hence `open_time`
and, for symmetry, `close_time`). -/
structure SessionWindow where
  open_time : String
  close_time : String
  timezone : String
deriving DecidableEq, Repr

/-- One overlap row of the `/sessions` response (source keys `start`,
`end`, `volatility`; `end` is a Lean keyword, hence `start_time` and
`end_time`). -/
structure OverlapWindow where
  start_time : String
  end_time : String
  volatility : String
deriving DecidableEq, Repr

/-- The `/sessions` response object. -/
structure SessionsResponse where
  current_session : String
  sessions : List (String × SessionWindow)
  overlaps : List (String × OverlapWindow)
deriving DecidableEq, Repr

/-- Embeds `get_sessions`: the current session from the UTC hour plus the
literal schedule table of the source. -/
def get_sessions (hour : Nat) : SessionsResponse :=
  { current_session := _get_current_session hour
    sessions :=
      [ ("sydney", ⟨"21:00", "06:00", "UTC"⟩),
        ("tokyo", ⟨"00:00", "09:00", "UTC"⟩),
        ("london", ⟨"07:00", "16:00", "UTC"⟩),
        ("new_york", ⟨"12:00", "21:00", "UTC"⟩) ]
    overlaps :=
      [ ("tokyo_london", ⟨"07:00", "09:00", "HIGH"⟩),
        ("london_new_york", ⟨"12:00", "16:00", "HIGHEST"⟩) ] }

end ForexService

namespace ForexService

instance {ε α : Type} [DecidableEq ε] [DecidableEq α] : DecidableEq (Except ε α)
  | .error e, .error f =>
    if h : e = f then .isTrue (by rw [h]) else .isFalse (fun hh => h (Except.error.inj hh))
  | .error _, .ok _ => .isFalse Except.noConfusion
  | .ok _, .error _ => .isFalse Except.noConfusion
  | .ok a, .ok b =>
    if h : a = b then .isTrue (by rw [h]) else .isFalse (fun hh => h (Except.ok.inj hh))

/-- C1 (counterexample): the catalog has 18 entries, not 19 as the claim
states — its own breakdown 7 majors + 7 minors + 4 exotics sums to 18 —
so an unfiltered listing has length 18 and not 19. -/
theorem list_pairs_nineteen_cex :
    (list_pairs none).length = 18 ∧ ¬ (list_pairs none).length = 19 := by
  decide

/-- C1 (amended: 18 catalog entries, not 19): listing with no category
filter returns all 18 catalog entries — the first 7 of category major,
the next 7 minor, the last 4 exotic — in catalog insertion order;
filtering by "major" returns exactly the first 7 (major) entries; a
category matching no pair returns the empty sequence. -/
theorem list_pairs_catalog_order :
    list_pairs none = FOREX_PAIRS.map Prod.snd ∧
    (list_pairs none).length = 18 ∧
    ((list_pairs none).take 7).all (fun p => p.category == "major") = true ∧
    (((list_pairs none).drop 7).take 7).all (fun p => p.category == "minor") = true ∧
    ((list_pairs none).drop 14).all (fun p => p.category == "exotic") = true ∧
    ((list_pairs none).drop 14).length = 4 ∧
    list_pairs (some "major") = (FOREX_PAIRS.map Prod.snd).take 7 ∧
    (list_pairs (some "major")).length = 7 ∧
    list_pairs (some "nonexistent") = [] := by
  exact ⟨rfl, rfl, rfl, rfl, rfl, rfl, rfl, rfl, rfl⟩

/-- C2: the current-session classifier is total over the 24 UTC hours,
maps every hour to exactly one of the six labels, and agrees with the
fixed table: 0-5 tokyo, 6-8 tokyo_london, 9-11 london, 12-15
london_new_york, 16-20 new_york, 21-23 sydney. -/
theorem current_session_table :
    ∀ h : Fin 24,
      _get_current_session h.val =
        (if h.val ≤ 5 then "tokyo"
         else if h.val ≤ 8 then "tokyo_london"
         else if h.val ≤ 11 then "london"
         else if h.val ≤ 15 then "london_new_york"
         else if h.val ≤ 20 then "new_york"
         else "sydney") ∧
      _get_current_session h.val ∈
        (["tokyo", "tokyo_london", "london", "london_new_york",
          "new_york", "sydney"] : List String) := by
  decide

/-- C8: the sessions endpoint's `current_session` field always equals a
direct call to the classifier at the same instant, and the schedule table
and overlap windows are the same constant at every instant. -/
theorem sessions_endpoint_consistency :
    ∀ h₁ h₂ : Nat,
      (get_sessions h₁).current_session = _get_current_session h₁ ∧
      (get_sessions h₁).sessions = (get_sessions h₂).sessions ∧
      (get_sessions h₁).overlaps = (get_sessions h₂).overlaps := by
  intro h₁ h₂
  exact ⟨rfl, rfl, rfl⟩

/-- C9: an empty-string filter parameter behaves as an absent one: an
empty category lists the whole catalog, and an empty symbol or direction
applies no signal filtering, because each filter fires only on a
non-empty (truthy) string. -/
theorem empty_string_filters_ignored :
    ∀ (d : Option String) (mc : ℚ) (now : Nat),
      list_pairs (some "") = list_pairs none ∧
      list_pairs (some "") = FOREX_PAIRS.map Prod.snd ∧
      get_signals (some "") d mc now = get_signals none d mc now ∧
      get_signals none (some "") mc now = get_signals none none mc now := by
  intro d mc now
  exact ⟨rfl, rfl, rfl, rfl⟩

/-- C10: the static schedule constants and the classifier's hour
boundaries disagree: at hour 6 the classifier says tokyo_london although
the schedule lists that overlap as starting at 07:00, and hours 7 and 8
lie inside the schedule's london window (07:00-16:00) while the
classifier returns london only for hours 9-11. -/
theorem session_schedule_boundary_mismatch :
    _get_current_session 6 = "tokyo_london" ∧
    _get_current_session 7 = "tokyo_london" ∧
    _get_current_session 8 = "tokyo_london" ∧
    ((get_sessions 0).overlaps.lookup "tokyo_london").map
      OverlapWindow.start_time = some "07:00" ∧
    (get_sessions 0).sessions.lookup "london" = some ⟨"07:00", "16:00", "UTC"⟩ ∧
    (∀ h : Fin 24, _get_current_session h.val = "london" ↔ 9 ≤ h.val ∧ h.val < 12) := by
  refine ⟨rfl, rfl, rfl, rfl, rfl, ?_⟩
  decide

/-- C5: pair detail lookup uppercases the requested symbol first, so the
result is exactly the catalog lookup of the uppercased symbol (never an
error on a catalog symbol, and "eurusd" and "EURUSD" get the same
record), and an absent symbol yields a 404 whose message names the
uppercased missing symbol. -/
theorem get_pair_case_insensitive_404 (s : String) :
    (get_pair s).toOption = FOREX_PAIRS.lookup (str_upper s) ∧
    (FOREX_PAIRS.lookup (str_upper s) = none →
      get_pair s = .error ⟨404, "Pair " ++ str_upper s ++ " not found"⟩ ∧
      ∃ pre post, "Pair " ++ str_upper s ++ " not found" = pre ++ str_upper s ++ post) ∧
    get_pair "eurusd" = get_pair "EURUSD" := by
  refine ⟨?_, ?_, ?_⟩
  · cases h : FOREX_PAIRS.lookup (str_upper s) <;> simp [get_pair, h, Except.toOption]
  · intro h
    exact ⟨by simp [get_pair, h], "Pair ", " not found", rfl⟩
  · simp [get_pair, show str_upper "eurusd" = "EURUSD" from by decide,
          show str_upper "EURUSD" = "EURUSD" from by decide]

/-- C5 witness: the unknown symbol "XXXYYY" yields the 404 with the
symbol named in the message. -/
theorem get_pair_case_insensitive_404_witness :
    get_pair "XXXYYY" = .error ⟨404, "Pair XXXYYY not found"⟩ := by
  have h := (get_pair_case_insensitive_404 "XXXYYY").2.1 (by decide)
  exact h.1

/-- C7: every catalog entry has a positive pip value — 0.01 when the
quote currency is JPY and 0.0001 otherwise — and no average spread. -/
theorem catalog_pip_values (p : ForexPair) (hp : p ∈ FOREX_PAIRS.map Prod.snd) :
    0 < p.pip_value ∧
    (p.quote = "JPY" → p.pip_value = 1/100) ∧
    (p.quote ≠ "JPY" → p.pip_value = 1/10000) ∧
    p.spread_avg = none := by
  simp only [FOREX_PAIRS, List.map, List.mem_cons, List.not_mem_nil, or_false] at hp
  rcases hp with rfl | rfl | rfl | rfl | rfl | rfl | rfl | rfl | rfl |
    rfl | rfl | rfl | rfl | rfl | rfl | rfl | rfl | rfl <;>
    exact ⟨by norm_num, by simp, by simp, rfl⟩

/-- C7 witness: the invariant at the first catalog entry, EURUSD. -/
theorem catalog_pip_values_witness :
    0 < (ForexPair.mk "EURUSD" "EUR" "USD" "major" (1/10000) none).pip_value ∧
    (ForexPair.mk "EURUSD" "EUR" "USD" "major" (1/10000) none).spread_avg = none := by
  have h := catalog_pip_values ⟨"EURUSD", "EUR", "USD", "major", 1/10000, none⟩
    (List.Mem.head _)
  exact ⟨h.1, h.2.2.2⟩

/-- C3 (counterexample): a signals request for "XXXYYY", a symbol absent
from the catalog, is not rejected: the handler returns a normal success
response (the empty list under the default threshold), never a client
error. -/
theorem signals_unknown_symbol_cex :
    FOREX_PAIRS.lookup (str_upper "XXXYYY") = none ∧
    get_signals_endpoint (some "XXXYYY") none (7/10) 0 = Except.ok [] ∧
    ∀ e : HTTPError, get_signals_endpoint (some "XXXYYY") none (7/10) 0 ≠ Except.error e := by
  refine ⟨by decide, by rfl, ?_⟩
  intro e h
  rw [show get_signals_endpoint (some "XXXYYY") none (7/10) 0 = Except.ok [] from rfl] at h
  exact Except.noConfusion h

/-- C3 (amended: the signals endpoint performs no catalog validation):
for every non-empty symbol parameter absent from the catalog after
uppercasing, the endpoint returns a normal success response whose signal
list is empty (both seed symbols are catalog symbols, so the symbol
filter removes everything), rather than rejecting the request. -/
theorem signals_unknown_symbol_empty (s : String) (d : Option String)
    (mc : ℚ) (now : Nat) (hs : s ≠ "")
    (habs : FOREX_PAIRS.lookup (str_upper s) = none) :
    get_signals_endpoint (some s) d mc now = Except.ok [] := by
  have hempty : s.isEmpty = false := by
    cases he : s.isEmpty
    · rfl
    · exact absurd ((String.isEmpty_iff s).mp he) hs
  have h1 : (("EURUSD" : String) == str_upper s) = false := by
    rw [beq_eq_false_iff_ne]
    intro heq
    rw [← heq] at habs
    revert habs
    decide
  have h2 : (("GBPJPY" : String) == str_upper s) = false := by
    rw [beq_eq_false_iff_ne]
    intro heq
    rw [← heq] at habs
    revert habs
    decide
  cases d <;> simp [get_signals_endpoint, get_signals, seed_signals, hempty, h1, h2]

/-- C3 witness: the amended statement at the concrete unknown symbol
"ZZZAAA" with no direction filter and the default threshold. -/
theorem signals_unknown_symbol_empty_witness :
    get_signals_endpoint (some "ZZZAAA") none (7/10) 0 = Except.ok [] :=
  signals_unknown_symbol_empty "ZZZAAA" none (7/10) 0 (by decide) (by decide)

/-- C4: signal listing filters the two seed signals (EURUSD LONG at 0.78,
GBPJPY SHORT at 0.72) conjunctively by case-insensitive symbol,
case-insensitive direction, and inclusive minimum confidence (declared
default 0.7): threshold 0.75 keeps only the 0.78 signal, threshold 0.9
keeps nothing, direction SHORT in any case keeps only the GBPJPY signal,
and a symbol filter combines with the other two. -/
theorem signal_filters_conjunctive :
    ∀ now : Nat,
      min_confidence_default = 7/10 ∧
      (seed_signals now).map (fun s => (s.symbol, s.direction, s.confidence)) =
        [("EURUSD", "LONG", 78/100), ("GBPJPY", "SHORT", 72/100)] ∧
      get_signals none none (75/100) now = (seed_signals now).take 1 ∧
      get_signals none none (9/10) now = [] ∧
      get_signals none (some "SHORT") (7/10) now = (seed_signals now).drop 1 ∧
      get_signals none (some "short") (7/10) now = (seed_signals now).drop 1 ∧
      get_signals (some "eurusd") none (7/10) now = (seed_signals now).take 1 ∧
      get_signals (some "EURUSD") (some "long") (75/100) now = (seed_signals now).take 1 := by
  intro now
  refine ⟨rfl, rfl, ?_, ?_, ?_, ?_, ?_, ?_⟩ <;>
    norm_num [get_signals, seed_signals, List.filter,
              show str_upper "short" = "SHORT" from by decide,
              show str_upper "SHORT" = "SHORT" from by decide,
              show str_upper "long" = "LONG" from by decide,
              show str_upper "eurusd" = "EURUSD" from by decide,
              show str_upper "EURUSD" = "EURUSD" from by decide,
              show "short".isEmpty = false from by decide,
              show "SHORT".isEmpty = false from by decide,
              show "long".isEmpty = false from by decide,
              show "eurusd".isEmpty = false from by decide,
              show "EURUSD".isEmpty = false from by decide,
              show (("LONG" : String) == "SHORT") = false from by decide,
              show (("SHORT" : String) == "SHORT") = true from by decide,
              show (("LONG" : String) == "LONG") = true from by decide,
              show (("SHORT" : String) == "LONG") = false from by decide,
              show (("EURUSD" : String) == "EURUSD") = true from by decide,
              show (("GBPJPY" : String) == "EURUSD") = false from by decide]

/-- Evaluation of `analyze_pair` on a known symbol: the single mock
result record, with the AI block attached exactly when requested. -/
theorem analyze_pair_eq_ok (request : AnalyzeRequest) (hour now : Nat)
    (p : ForexPair) (hp : FOREX_PAIRS.lookup (str_upper request.symbol) = some p) :
    analyze_pair request hour now = .ok
      { symbol := str_upper request.symbol
        timeframe := request.timeframe
        timestamp := now
        price := 10850/10000
        direction := "NEUTRAL"
        confidence := 65/100
        indicators :=
          [ ("rsi", .num (523/10)),
            ("macd", .obj [("value", 12/10000), ("signal", 8/10000),
                           ("histogram", 4/10000)]),
            ("bb", .obj [("upper", 10900/10000), ("middle", 10850/10000),
                         ("lower", 10800/10000)]),
            ("atr", .num (45/10000)),
            ("ema_20", .num (10845/10000)),
            ("ema_50", .num (10830/10000)),
            ("ema_200", .num (10780/10000)) ]
        session := _get_current_session hour
        volatility := "MEDIUM"
        support_levels := [10800/10000, 10750/10000, 10700/10000]
        resistance_levels := [10900/10000, 10950/10000, 11000/10000]
        ai_analysis :=
          if request.include_ai then
            some [ ("bull_case", "EUR strength on hawkish ECB stance"),
                   ("bear_case", "USD safe-haven demand amid risk-off"),
                   ("key_levels", "Watch 1.0900 resistance"),
                   ("session_bias",
                    _get_current_session hour ++ " session typically bullish for EUR") ]
          else none } := by
  cases hb : request.include_ai <;> simp [analyze_pair, hp, hb]

/-- C6: analysis of an unknown symbol (after uppercasing) fails with a
404 naming the symbol; on a known symbol it succeeds with a result whose
session equals the classifier's value, whose indicators are the fixed
bundle (rsi, macd value/signal/histogram, bollinger upper/middle/lower,
atr, ema_20/50/200) with the fixed support/resistance arrays, and whose
AI block is present exactly when `include_ai` is true and non-empty
then. -/
theorem analyze_pair_spec (request : AnalyzeRequest) (hour now : Nat) :
    (FOREX_PAIRS.lookup (str_upper request.symbol) = none →
      analyze_pair request hour now =
        .error ⟨404, "Pair " ++ str_upper request.symbol ++ " not found"⟩) ∧
    (FOREX_PAIRS.lookup (str_upper request.symbol) ≠ none →
      ∃ r, analyze_pair request hour now = .ok r ∧
        r.session = _get_current_session hour ∧
        r.indicators =
          [ ("rsi", .num (523/10)),
            ("macd", .obj [("value", 12/10000), ("signal", 8/10000),
                           ("histogram", 4/10000)]),
            ("bb", .obj [("upper", 10900/10000), ("middle", 10850/10000),
                         ("lower", 10800/10000)]),
            ("atr", .num (45/10000)),
            ("ema_20", .num (10845/10000)),
            ("ema_50", .num (10830/10000)),
            ("ema_200", .num (10780/10000)) ] ∧
        r.support_levels = [10800/10000, 10750/10000, 10700/10000] ∧
        r.resistance_levels = [10900/10000, 10950/10000, 11000/10000] ∧
        r.ai_analysis.isSome = request.include_ai ∧
        (request.include_ai = true → ∃ l, r.ai_analysis = some l ∧ l ≠ [])) := by
  constructor
  · intro h
    simp [analyze_pair, h]
  · intro hne
    obtain ⟨p, hp⟩ := Option.ne_none_iff_exists'.mp hne
    refine ⟨_, analyze_pair_eq_ok request hour now p hp, rfl, rfl, rfl, rfl, ?_, ?_⟩
    · cases hb : request.include_ai <;> simp [hb]
    · intro hb
      refine ⟨[ ("bull_case", "EUR strength on hawkish ECB stance"),
                ("bear_case", "USD safe-haven demand amid risk-off"),
                ("key_levels", "Watch 1.0900 resistance"),
                ("session_bias",
                 _get_current_session hour ++ " session typically bullish for EUR") ],
              by simp [hb], by simp⟩

/-- C6 witness: a 404 for the unknown symbol "ZZZZZZ", and a successful
analysis for "eurusd" at hour 13 whose session is the classifier's
london_new_york with the AI block present. -/
theorem analyze_pair_spec_witness :
    (analyze_pair ⟨"ZZZZZZ", "1h", true⟩ 13 0 =
      .error ⟨404, "Pair ZZZZZZ not found"⟩) ∧
    (∃ r, analyze_pair ⟨"eurusd", "1h", true⟩ 13 0 = .ok r ∧
      r.session = "london_new_york" ∧ r.ai_analysis.isSome = true) := by
  constructor
  · exact (analyze_pair_spec ⟨"ZZZZZZ", "1h", true⟩ 13 0).1 (by decide)
  · obtain ⟨r, h1, h2, _, _, _, h6, _⟩ :=
      (analyze_pair_spec ⟨"eurusd", "1h", true⟩ 13 0).2 (by decide)
    exact ⟨r, h1, h2, h6⟩

end ForexService
